import Mathlib

/-!
Shallow embedding of the contact-import and admin screens of the
message-sending application, together with proofs of the specified
properties of its import pipeline, dashboard aggregation and local
validation guards.

The application's parsers produce loosely-typed flat row objects; we model
such a row as an association list from string keys to string values, where
a key that is absent behaves, for every use the code makes of it, exactly
like a key bound to the empty string (JavaScript `undefined` and `""` are
both falsy and both chains `a || b` and the truthiness filter only
distinguish empty from non-empty).
-/

/-- A raw row record produced by one of the parsers: a flat JS object,
modelled as an association list with unique keys. -/
abbrev RawRecord := List (String × String)

/-- Property read `item.key` followed by the code's falsy-default usage:
absent keys and empty-string values are indistinguishable everywhere the
code reads a field, so absence is collapsed to `""`. -/
def getField (item : RawRecord) (key : String) : String :=
  (((item.find? (fun p => p.1 == key)).map (fun p => p.2)).getD "")

/-- JavaScript `a || b` restricted to strings: the left operand unless it
is falsy (empty). -/
def jsOr (a b : String) : String :=
  if a = "" then b else a

/-- JavaScript `s.split(regex)` for a single-character class: cut the
character sequence at every delimiter character, keeping empty pieces
(`"".split` yields `[""]`, a trailing delimiter yields a trailing `""`). -/
def jsSplit (p : Char → Bool) (s : String) : List String :=
  (s.toList.splitOnP p).map List.asString

/-- JavaScript `s.trim()`: drop whitespace from both ends. -/
def jsTrim (s : String) : String :=
  ((s.toList.dropWhile Char.isWhitespace).reverse.dropWhile
    Char.isWhitespace).reverse.asString

/-- JavaScript `s.toLowerCase()` on the ASCII range. -/
def jsToLower (s : String) : String :=
  (s.toList.map Char.toLower).asString

/-- JS object property assignment `obj[k] = v`: overwrite an existing
binding, otherwise append a new one. -/
def jsSet (obj : RawRecord) (k v : String) : RawRecord :=
  if obj.any (fun p => p.1 == k) then
    obj.map (fun p => if p.1 == k then (k, v) else p)
  else
    obj ++ [(k, v)]

/-- The normalized in-memory contact shape `{name, email, phone}` built by
`processImportedData` in ContactManagement. -/
structure ImportedContact where
  name : String
  email : String
  phone : String
deriving DecidableEq, Repr

/-- The alias-chain mapping inside `processImportedData`:
`item.name || item.Name || item.NAME || item.contact || item.Contact || ''`
and the corresponding chains for email and phone. -/
def normalizeRecord (item : RawRecord) : ImportedContact :=
  { name := jsOr (getField item "name") (jsOr (getField item "Name")
      (jsOr (getField item "NAME") (jsOr (getField item "contact")
      (jsOr (getField item "Contact") ""))))
    email := jsOr (getField item "email") (jsOr (getField item "Email")
      (jsOr (getField item "EMAIL") ""))
    phone := jsOr (getField item "phone") (jsOr (getField item "Phone")
      (jsOr (getField item "PHONE") (jsOr (getField item "mobile")
      (jsOr (getField item "Mobile") (jsOr (getField item "whatsapp")
      (jsOr (getField item "Whatsapp") ""))))))
  }

/-- The acceptance filter `contact.name && (contact.email || contact.phone)`:
string truthiness means non-emptiness. -/
def contactTruthyFilter (c : ImportedContact) : Bool :=
  (!(c.name == "")) && ((!(c.email == "")) || (!(c.phone == "")))

/-- Function `processImportedData` from ContactManagement: map every raw row to the
canonical shape, then keep only rows passing the truthiness filter. -/
def processImportedData (data : List RawRecord) : List ImportedContact :=
  (data.map normalizeRecord).filter contactTruthyFilter

/-- Spec-side characterization of alias resolution, written from the
spec's words: walk an ordered key list and return the first non-empty
field value, defaulting to the empty string. Compared against the code's
`||`-chains in the C2 theorem. -/
def firstNonEmptyField (item : RawRecord) : List String → String
  | [] => ""
  | k :: ks =>
    if getField item k = "" then firstNonEmptyField item ks
    else getField item k

/-- The acceptance condition as a proposition. -/
def AcceptedShape (c : ImportedContact) : Prop :=
  c.name ≠ "" ∧ (c.email ≠ "" ∨ c.phone ≠ "")

instance (c : ImportedContact) : Decidable (AcceptedShape c) :=
  inferInstanceAs (Decidable (c.name ≠ "" ∧ (c.email ≠ "" ∨ c.phone ≠ "")))

theorem contactTruthyFilter_eq_true_iff (c : ImportedContact) :
    contactTruthyFilter c = true ↔ AcceptedShape c := by
  simp [contactTruthyFilter, AcceptedShape]

/-- C1: every record in the accepted output of `processImportedData` has a
non-empty name and a non-empty email or phone; every record failing that
condition is absent from the output; and the CSV-derived record with name
"Bob", empty email and no phone key is not accepted. -/
theorem processImportedData_filter_invariant :
    (∀ (data : List RawRecord) (c : ImportedContact),
      c ∈ processImportedData data → AcceptedShape c) ∧
    (∀ (data : List RawRecord) (c : ImportedContact),
      ¬ AcceptedShape c → c ∉ processImportedData data) ∧
    processImportedData [[("name", "Bob"), ("email", "")]] = [] := by
  refine ⟨?_, ?_, ?_⟩
  · intro data c hc
    have := (List.mem_filter.mp hc).2
    exact (contactTruthyFilter_eq_true_iff c).mp this
  · intro data c hna hc
    have := (List.mem_filter.mp hc).2
    exact hna ((contactTruthyFilter_eq_true_iff c).mp this)
  · decide

/-- Closed instance of the C1 theorem: the record normalized from the row
`{name: "Bob", phone: "1"}` is in the output of `processImportedData` on
the singleton import, hence satisfies the acceptance shape. -/
theorem processImportedData_filter_invariant_witness :
    AcceptedShape ⟨"Bob", "", "1"⟩ ∧
    ¬ AcceptedShape ⟨"Bob", "", ""⟩ ∧
    (⟨"Bob", "", ""⟩ : ImportedContact) ∉
      processImportedData [[("name", "Bob"), ("email", "")]] := by
  refine ⟨?_, ?_, ?_⟩
  · exact processImportedData_filter_invariant.1
      [[("name", "Bob"), ("phone", "1")]] ⟨"Bob", "", "1"⟩ (by decide)
  · decide
  · exact processImportedData_filter_invariant.2.1
      [[("name", "Bob"), ("email", "")]] ⟨"Bob", "", ""⟩ (by decide)

/-- C2: the code's `||`-chains resolve each canonical field as "first
non-empty value along a fixed ordered alias list", and a record whose only
header is literally `EMAIL` yields the same email value as one whose
header is `email`. -/
theorem normalizeRecord_alias_resolution :
    (∀ item : RawRecord,
      (normalizeRecord item).name =
        firstNonEmptyField item ["name", "Name", "NAME", "contact", "Contact"] ∧
      (normalizeRecord item).email =
        firstNonEmptyField item ["email", "Email", "EMAIL"] ∧
      (normalizeRecord item).phone =
        firstNonEmptyField item
          ["phone", "Phone", "PHONE", "mobile", "Mobile", "whatsapp", "Whatsapp"]) ∧
    (∀ v : String,
      (normalizeRecord [("EMAIL", v)]).email = (normalizeRecord [("email", v)]).email) := by
  constructor
  · intro item
    refine ⟨?_, ?_, ?_⟩ <;>
      simp [normalizeRecord, firstNonEmptyField, jsOr]
  · intro v
    by_cases hv : v = "" <;>
      simp [normalizeRecord, getField, jsOr, hv]

/-! ### Delimited-text parser (the `.txt` branch of `onDrop`) -/

/-- Source `line.split(/[,\t]/)`: split at every comma or tab character. -/
def delimSplit (s : String) : List String :=
  jsSplit (fun c => (c == ',') || (c == '\t')) s

/-- Source `text.split('\n')`: the line list of a `.txt` file. -/
def txtLines (text : String) : List String :=
  jsSplit (fun c => c == '\n') text

/-- Source `lines[0].split(/[,\t]/).map(h => h.trim())`: the header row of a
`.txt` file. -/
def txtHeaders (text : String) : List String :=
  (delimSplit ((txtLines text).headD "")).map jsTrim

/-- The row object built for one data line:
`headers.forEach((header, index) => obj[header] = values[index]?.trim() || '')`. -/
def txtRow (headers : List String) (line : String) : RawRecord :=
  let values := delimSplit line
  headers.enum.foldl
    (fun obj p => jsSet obj p.2 (jsOr (((values.get? p.1).map jsTrim).getD "") ""))
    []

/-- The `.txt` branch of `onDrop`: split on newlines, head line gives the
headers, every remaining line (`lines.slice(1)`) gives one row object. -/
def parseTxt (text : String) : List RawRecord :=
  ((txtLines text).drop 1).map (txtRow (txtHeaders text))

theorem getField_eq_empty_of_all_empty (obj : RawRecord)
    (h : ∀ p ∈ obj, p.2 = "") (k : String) : getField obj k = "" := by
  unfold getField
  cases hf : obj.find? (fun p => p.1 == k) with
  | none => simp
  | some p =>
    have hm : p ∈ obj := List.mem_of_find?_eq_some hf
    simp [h p hm]

theorem jsSet_all_empty (obj : RawRecord) (k : String)
    (h : ∀ p ∈ obj, p.2 = "") : ∀ p ∈ jsSet obj k "", p.2 = "" := by
  intro p hp
  unfold jsSet at hp
  split at hp
  · rcases List.mem_map.mp hp with ⟨q, hq, hpq⟩
    by_cases hqk : q.1 == k
    · simp [hqk] at hpq; simp [← hpq]
    · simp [hqk] at hpq; exact hpq ▸ h q hq
  · rcases List.mem_append.mp hp with hl | hr
    · exact h p hl
    · simp at hr; simp [hr]

theorem foldl_jsSet_all_empty (f : Nat → String) (hf : ∀ i, f i = "") :
    ∀ (L : List (Nat × String)) (obj : RawRecord), (∀ p ∈ obj, p.2 = "") →
      ∀ p ∈ L.foldl (fun obj q => jsSet obj q.2 (f q.1)) obj, p.2 = "" := by
  intro L
  induction L with
  | nil => intro obj h p hp; exact h p hp
  | cons q L ih =>
    intro obj h
    have h' : ∀ p ∈ jsSet obj q.2 (f q.1), p.2 = "" := by
      rw [hf q.1]; exact jsSet_all_empty obj q.2 h
    exact ih _ h'

theorem txtRow_blank_all_empty (headers : List String) :
    ∀ p ∈ txtRow headers "", p.2 = "" := by
  unfold txtRow
  have hd : delimSplit "" = [""] := by decide
  have hf : ∀ i, jsOr ((((delimSplit "").get? i).map jsTrim).getD "") "" = "" := by
    intro i
    rw [hd]
    cases i with
    | zero => decide
    | succ n => simp [jsOr, List.get?]
  intro p hp
  exact foldl_jsSet_all_empty _ hf headers.enum [] (by simp) p hp

theorem normalizeRecord_blank_line (headers : List String) :
    contactTruthyFilter (normalizeRecord (txtRow headers "")) = false := by
  have h := txtRow_blank_all_empty headers
  have hg : ∀ k, getField (txtRow headers "") k = "" :=
    getField_eq_empty_of_all_empty _ h
  simp [contactTruthyFilter, normalizeRecord, jsOr, hg]

/-- C4 counterexample: on the file `"name,phone\n\nCy,12345"` the parser
builds two records — one for the blank middle line as well — although only
one remaining line is non-blank, so the parser does not build "one record
per remaining non-blank line". -/
theorem parseTxt_blank_line_counterexample :
    (parseTxt "name,phone\n\nCy,12345").length = 2 ∧
    (((txtLines "name,phone\n\nCy,12345").drop 1).filter
      (fun l => !(l == ""))).length = 1 := by
  constructor <;> decide

/-- C4 amended: the `.txt` parser splits the first line on comma or tab as
headers and builds one record per remaining line — blank lines included,
whose records have every field empty and are therefore dropped by the
normalizer — trimming whitespace from each field; the file with header
`name,phone` and data line `Cy,12345` yields exactly one accepted record
`{name := "Cy", email := "", phone := "12345"}`. -/
theorem parseTxt_spec :
    (∀ text : String, (parseTxt text).length = ((txtLines text).drop 1).length) ∧
    (∀ headers : List String,
      contactTruthyFilter (normalizeRecord (txtRow headers "")) = false) ∧
    txtHeaders "name,phone\nCy,12345" = ["name", "phone"] ∧
    processImportedData (parseTxt "name,phone\nCy,12345") =
      [⟨"Cy", "", "12345"⟩] ∧
    processImportedData (parseTxt "name\tphone\n Cy \t 12345 ") =
      [⟨"Cy", "", "12345"⟩] := by
  refine ⟨?_, normalizeRecord_blank_line, ?_, ?_, ?_⟩
  · intro text; simp [parseTxt]
  · decide
  · decide
  · decide

/-! ### Bulk importer (`handleSaveImportedContacts`) -/

/-- One row of the single batch insert into the contacts store: the
normalized contact spread together with `created_by: user?.id`. -/
structure ContactInsert where
  name : String
  email : String
  phone : String
  created_by : Option String
deriving DecidableEq, Repr

/-- Source `{...contact, created_by: user?.id}`. -/
def attachUser (userId : Option String) (c : ImportedContact) : ContactInsert :=
  { name := c.name, email := c.email, phone := c.phone, created_by := userId }

/-- Observable outcome of `handleSaveImportedContacts`: either the local
"No valid contacts to import" error (no network call) or a single batch
insert of the given rows. -/
inductive SaveImportedResult
  | importErrorNoContacts
  | insertBatch (rows : List ContactInsert)
deriving DecidableEq, Repr

/-- Function `handleSaveImportedContacts`: bail out with a local error when the
accepted set is empty, otherwise attach the actor id to every record and
submit all of them as one batch insert. -/
def handleSaveImportedContacts (importedContacts : List ImportedContact)
    (userId : Option String) : SaveImportedResult :=
  if importedContacts.length = 0 then .importErrorNoContacts
  else .insertBatch (importedContacts.map (attachUser userId))

/-- C3 counterexample: for the empty accepted record set the importer does
not submit a batch at all — it stops with a local error — contradicting
"submits exactly one batch containing one output record per accepted
record" read over every accepted record set. -/
theorem handleSaveImportedContacts_empty_counterexample :
    handleSaveImportedContacts [] (some "user-1") = .importErrorNoContacts ∧
    handleSaveImportedContacts [] (some "user-1") ≠ .insertBatch [] := by
  constructor
  · rfl
  · decide

/-- C3 amended: for every non-empty accepted record set the importer
submits exactly one batch with one output row per accepted record, in
order, each row carrying the actor id as `created_by` and the record's
name, email and phone unchanged. -/
theorem handleSaveImportedContacts_single_batch
    (importedContacts : List ImportedContact) (userId : Option String)
    (h : importedContacts ≠ []) :
    handleSaveImportedContacts importedContacts userId =
      .insertBatch (importedContacts.map (attachUser userId)) ∧
    (importedContacts.map (attachUser userId)).length = importedContacts.length ∧
    ∀ c ∈ importedContacts, attachUser userId c =
      { name := c.name, email := c.email, phone := c.phone, created_by := userId } := by
  refine ⟨?_, by simp, fun c _ => rfl⟩
  have hlen : importedContacts.length ≠ 0 := by
    simpa [List.length_eq_zero] using h
  simp [handleSaveImportedContacts, hlen]

/-- Closed instance of the C3 amended theorem at a one-element accepted
set. -/
theorem handleSaveImportedContacts_single_batch_witness :
    handleSaveImportedContacts [⟨"Ann", "", "+1555"⟩] (some "user-1") =
      .insertBatch [⟨"Ann", "", "+1555", some "user-1"⟩] := by
  have hne : ([⟨"Ann", "", "+1555"⟩] : List ImportedContact) ≠ [] := by decide
  exact (handleSaveImportedContacts_single_batch
    [⟨"Ann", "", "+1555"⟩] (some "user-1") hne).1

/-! ### JSON import example -/

/-- The JSON branch of `onDrop` delegates to the platform's `JSON.parse`;
for a file whose content is the array `[{"Name":"Ann","Phone":"+1555"}]`
the parsed ordered sequence of flat objects is this one-object record
list. -/
def jsonParsedAnnFile : List RawRecord :=
  [[("Name", "Ann"), ("Phone", "+1555")]]

/-- C5: the JSON file `[{"Name":"Ann","Phone":"+1555"}]` yields, after
parsing and normalization, exactly the accepted record
`{name := "Ann", email := "", phone := "+1555"}`. -/
theorem json_ann_import_accepted :
    processImportedData jsonParsedAnnFile =
      [{ name := "Ann", email := "", phone := "+1555" }] := by
  decide

/-! ### Dashboard stats aggregator (`fetchDashboardData`, first Dashboard
component of the source) -/

/-- The fields of a fetched message row that the dashboard reads. -/
structure Message where
  content : String
  sent_at : Nat
  sent_via : List String
deriving DecidableEq, Repr

/-- The five scalar counts the dashboard stores in its `stats` state. -/
structure DashboardStats where
  totalContacts : Nat
  totalMessages : Nat
  emailsSent : Nat
  whatsappSent : Nat
  totalUsers : Nat
deriving DecidableEq, Repr

/-- Function `fetchDashboardData`: the store returns the contact count, the message
rows ordered by `sent_at` descending and (for admins) the user count; the
code filters messages by channel membership, counts, and keeps
`messages.slice(0, 5)` as the recent list. -/
def fetchDashboardData (contactsCount : Nat) (messages : List Message)
    (isAdmin : Bool) (usersCount : Nat) : DashboardStats × List Message :=
  let emailMessages := messages.filter (fun m => m.sent_via.contains "email")
  let whatsappMessages := messages.filter (fun m => m.sent_via.contains "whatsapp")
  ({ totalContacts := contactsCount
     totalMessages := messages.length
     emailsSent := emailMessages.length
     whatsappSent := whatsappMessages.length
     totalUsers := if isAdmin then usersCount else 0 },
   messages.take 5)

/-- The descending-by-send-time order in which the store returns the
message rows (`order('sent_at', { ascending: false })`). -/
def SentDescending (messages : List Message) : Prop :=
  messages.Sorted (fun a b => b.sent_at ≤ a.sent_at)

/-- C6: for every fetched message set (delivered sorted by send time
descending), the email count is the number of messages whose `sent_via`
contains "email", the WhatsApp count likewise for "whatsapp", the total is
the length of the set, and the recent list is the first five messages of
the set, still in send-time-descending order. -/
theorem fetchDashboardData_counts (contactsCount : Nat)
    (messages : List Message) (isAdmin : Bool) (usersCount : Nat)
    (hsort : SentDescending messages) :
    (fetchDashboardData contactsCount messages isAdmin usersCount).1.emailsSent =
      messages.countP (fun m => m.sent_via.contains "email") ∧
    (fetchDashboardData contactsCount messages isAdmin usersCount).1.whatsappSent =
      messages.countP (fun m => m.sent_via.contains "whatsapp") ∧
    (fetchDashboardData contactsCount messages isAdmin usersCount).1.totalMessages =
      messages.length ∧
    (fetchDashboardData contactsCount messages isAdmin usersCount).2 =
      messages.take 5 ∧
    SentDescending (messages.take 5) := by
  refine ⟨?_, ?_, rfl, rfl, ?_⟩
  · simp [fetchDashboardData, List.countP_eq_length_filter]
  · simp [fetchDashboardData, List.countP_eq_length_filter]
  · exact List.Pairwise.sublist (List.take_sublist 5 messages) hsort

/-- Closed instance of the C6 theorem on a concrete two-message set. -/
theorem fetchDashboardData_counts_witness :
    (fetchDashboardData 7
        [⟨"hi", 10, ["email", "whatsapp"]⟩, ⟨"yo", 5, ["email"]⟩]
        true 3).1.emailsSent = 2 ∧
    (fetchDashboardData 7
        [⟨"hi", 10, ["email", "whatsapp"]⟩, ⟨"yo", 5, ["email"]⟩]
        true 3).1.whatsappSent = 1 := by
  have h := fetchDashboardData_counts 7
    [⟨"hi", 10, ["email", "whatsapp"]⟩, ⟨"yo", 5, ["email"]⟩] true 3
    (by simp [SentDescending])
  refine ⟨?_, ?_⟩
  · rw [h.1]; decide
  · rw [h.2.1]; decide

/-! ### Manual contact save (`handleSaveContact`) -/

/-- The row the manual contact form writes: empty email/phone become
`null` (`email: contactEmail || null`). -/
structure ContactRow where
  name : String
  email : Option String
  phone : Option String
  created_by : Option String
deriving DecidableEq, Repr

/-- Observable outcome of `handleSaveContact`: a local validation error
(no network call) or one network call, an update when a contact was being
edited and an insert otherwise. -/
inductive SaveContactResult
  | validationError (msg : String)
  | updateNetworkCall (id : String) (data : ContactRow)
  | insertNetworkCall (data : ContactRow)
deriving DecidableEq, Repr

/-- Function `handleSaveContact`: require a name, then require email or phone, then
issue the store write. -/
def handleSaveContact (contactName contactEmail contactPhone : String)
    (editingContact : Option String) (userId : Option String) :
    SaveContactResult :=
  if contactName = "" then .validationError "Contact name is required"
  else if contactEmail = "" ∧ contactPhone = "" then
    .validationError "Either email or phone is required"
  else
    let contactData : ContactRow :=
      { name := contactName
        email := if contactEmail = "" then none else some contactEmail
        phone := if contactPhone = "" then none else some contactPhone
        created_by := userId }
    match editingContact with
    | some id => .updateNetworkCall id contactData
    | none => .insertNetworkCall contactData

/-- C7: whenever both the email and the phone field are empty, saving a
contact stops with a validation error and never reaches a network call
(neither an update nor an insert), so the stored contact set is
untouched. -/
theorem handleSaveContact_requires_channel
    (contactName contactEmail contactPhone : String)
    (editingContact userId : Option String)
    (he : contactEmail = "") (hp : contactPhone = "") :
    (∃ msg, handleSaveContact contactName contactEmail contactPhone
      editingContact userId = .validationError msg) ∧
    (∀ id data, handleSaveContact contactName contactEmail contactPhone
      editingContact userId ≠ .updateNetworkCall id data) ∧
    (∀ data, handleSaveContact contactName contactEmail contactPhone
      editingContact userId ≠ .insertNetworkCall data) := by
  subst he hp
  by_cases hn : contactName = "" <;>
    simp [handleSaveContact, hn]

/-- Closed instance of the C7 theorem: name present, both channels
empty. -/
theorem handleSaveContact_requires_channel_witness :
    ∃ msg, handleSaveContact "Ann" "" "" none none = .validationError msg :=
  (handleSaveContact_requires_channel "Ann" "" "" none none rfl rfl).1

/-! ### User deletion guard (`handleDeleteUser`, both UserManagement
variants of the source) -/

/-- Observable outcome of `handleDeleteUser`: the local "You cannot delete
your own account" error, the confirm-dialog cancellation, or the network
deletion of the target id. -/
inductive DeleteUserResult
  | selfDeleteError
  | cancelled
  | deleteNetworkCall (id : String)
deriving DecidableEq, Repr

namespace UserManagementAuth

/-- Function `handleDeleteUser` of the first UserManagement component: reject the
actor's own id locally, ask for confirmation, then delete through
`supabase.auth.admin.deleteUser(id)`. A missing session (`user?.id`
undefined) never equals a string id. -/
def handleDeleteUser (currentUserId : Option String) (id : String)
    (confirmed : Bool) : DeleteUserResult :=
  if currentUserId = some id then .selfDeleteError
  else if !confirmed then .cancelled
  else .deleteNetworkCall id

end UserManagementAuth

namespace UserManagementProfiles

/-- Function `handleDeleteUser` of the second UserManagement component: the same
self-deletion guard and confirmation, then a `profiles`-table delete. -/
def handleDeleteUser (currentUserId : Option String) (id : String)
    (confirmed : Bool) : DeleteUserResult :=
  if currentUserId = some id then .selfDeleteError
  else if !confirmed then .cancelled
  else .deleteNetworkCall id

end UserManagementProfiles

/-- C8: in both UserManagement variants, a delete-user request whose
target id is the authenticated actor's own id is rejected locally with the
self-deletion error — never reaching the confirm dialog or a network
call — for every confirmation outcome. -/
theorem handleDeleteUser_self_rejected (id : String) (confirmed : Bool) :
    UserManagementAuth.handleDeleteUser (some id) id confirmed =
      .selfDeleteError ∧
    UserManagementProfiles.handleDeleteUser (some id) id confirmed =
      .selfDeleteError := by
  constructor <;>
    simp [UserManagementAuth.handleDeleteUser,
      UserManagementProfiles.handleDeleteUser]

/-! ### Format sniffer (extension dispatch of `onDrop`) -/

/-- The parsing strategy selected for a dropped file. -/
inductive ParseStrategy
  | csv
  | spreadsheet
  | json
  | txt
  | unsupported
deriving DecidableEq, Repr

/-- Source `file.name.split('.').pop()?.toLowerCase()`: the lowercased last
dot-separated component of the file name (`split` always returns a
non-empty array, so `pop` never yields `undefined`). -/
def fileExtension (fileName : String) : String :=
  jsToLower ((jsSplit (fun c => c == '.') fileName).getLastD "")

/-- The extension dispatch of `onDrop`: `csv`, then `xlsx`/`xls`, then
`json`, then `txt`; any other extension reaches the
"Unsupported file format" error branch, which produces no records. -/
def sniffFormat (fileName : String) : ParseStrategy :=
  if fileExtension fileName = "csv" then .csv
  else if fileExtension fileName = "xlsx" ∨ fileExtension fileName = "xls" then
    .spreadsheet
  else if fileExtension fileName = "json" then .json
  else if fileExtension fileName = "txt" then .txt
  else .unsupported

/-- C9: the parsing strategy is chosen by the lowercased final extension:
each allowlisted extension selects exactly its parser and every other
extension yields the unsupported-format outcome; illustrated on concrete
file names, upper-case spellings included. -/
theorem sniffFormat_spec :
    (∀ fileName : String,
      (sniffFormat fileName = .csv ↔ fileExtension fileName = "csv") ∧
      (sniffFormat fileName = .spreadsheet ↔
        (fileExtension fileName = "xlsx" ∨ fileExtension fileName = "xls")) ∧
      (sniffFormat fileName = .json ↔ fileExtension fileName = "json") ∧
      (sniffFormat fileName = .txt ↔ fileExtension fileName = "txt") ∧
      (fileExtension fileName ∉
          (["csv", "xlsx", "xls", "json", "txt"] : List String) →
        sniffFormat fileName = .unsupported)) ∧
    sniffFormat "Contacts.CSV" = .csv ∧
    sniffFormat "book.XLSX" = .spreadsheet ∧
    sniffFormat "book2.xls" = .spreadsheet ∧
    sniffFormat "data.json" = .json ∧
    sniffFormat "notes.TXT" = .txt ∧
    sniffFormat "image.png" = .unsupported := by
  refine ⟨?_, by decide, by decide, by decide, by decide, by decide, by decide⟩
  intro fileName
  unfold sniffFormat
  split_ifs with h1 h2 h3 h4
  · simp_all
  · rcases h2 with h2 | h2 <;> simp_all
  · simp_all
  · simp_all
  · simp_all

/-- Closed instance of the C9 theorem: `image.png` has extension `png`,
which is outside the allowlist, so the sniffer reports the unsupported
format. -/
theorem sniffFormat_spec_witness :
    sniffFormat "image.png" = .unsupported :=
  (sniffFormat_spec.1 "image.png").2.2.2.2 (by decide)

/-! ### Order preservation of the normalizer -/

/-- C10: the accepted output of `processImportedData` is an
order-preserving selection (a sublist) of the normalized input rows: every
accepted record is the normalization of some input row, records from
distinct rows stay distinct list positions, and the relative input order
is kept. -/
theorem processImportedData_order :
    (∀ data : List RawRecord,
      List.Sublist (processImportedData data) (data.map normalizeRecord)) ∧
    (∀ (data : List RawRecord) (c : ImportedContact),
      c ∈ processImportedData data → ∃ row ∈ data, c = normalizeRecord row) := by
  constructor
  · intro data
    exact List.filter_sublist _
  · intro data c hc
    rcases List.mem_filter.mp hc with ⟨hm, _⟩
    rcases List.mem_map.mp hm with ⟨row, hrow, rfl⟩
    exact ⟨row, hrow, rfl⟩

/-- Closed instance of the C10 theorem: the accepted record of a concrete
two-row import is the normalization of its (second) source row. -/
theorem processImportedData_order_witness :
    ∃ row ∈ ([[("x", "1")], [("name", "Bob"), ("phone", "1")]] : List RawRecord),
      (⟨"Bob", "", "1"⟩ : ImportedContact) = normalizeRecord row :=
  processImportedData_order.2
    [[("x", "1")], [("name", "Bob"), ("phone", "1")]] ⟨"Bob", "", "1"⟩ (by decide)
